import Mathlib

/-!
# pod2ip: the pod-name to host-address resolver

A shallow embedding of `pod2ip.go` and the properties of its request handler.

Conventions of the embedding.

* A Go `string` is a Lean `String`, that is a sequence of Unicode code points.
  Go strings that are not valid UTF-8 have no counterpart here.
* The handler is effectful.  Its effects are kept as state, the
  `http.ResponseWriter` and the client after the run, and as the ordered trace
  of the operations it performed (`Event`).
* A Go panic is an `Outcome.panicked` carrying the panic value.
* The Kubernetes client is a parameter. `Clientset.server` is what a request
  that is sent comes back with; `Clientset.get` is the pair `(pod, err)` that
  `Pods(ns).Get(ctx, name, opts)` returns, which is the error of the request
  builder when the builder refuses the name; the client keeps the record of
  the calls made on it and of the requests sent.
* The Go standard library is not part of the repository.  The functions of it
  that decide what the handler writes (`http.Header.Set`,
  `ResponseWriter.Write`, `fmt.Fprintf`, `json.Encoder.Encode`,
  `filepath.Join`) are modelled below from their Go sources.
-/

set_option autoImplicit false

namespace Pod2ip

/-! ## net/http -/

/-- The map `http.Header`: keys with their lists of values. -/
abbrev Header := List (String × List String)

/-- The values stored under a key (`h[key]`); a missing key gives the empty list. -/
def Header.values (h : Header) (key : String) : List String :=
  match h with
  | [] => []
  | (k, vs) :: rest => if k = key then vs else Header.values rest key

/-- The method `Header.Set`: replaces whatever is stored under `key` by the single value.
The key is stored as given; the one key the program sets is already in
canonical MIME form. -/
def Header.Set (h : Header) (key value : String) : Header :=
  (key, [value]) :: h.filter (fun kv => kv.1 ≠ key)

/-- The map `url.Values` that `r.URL.Query()` returns. -/
abbrev Values := List (String × List String)

/-- Indexing `query[key]`; a missing key gives the nil slice. -/
def Values.index (q : Values) (key : String) : List String :=
  match q with
  | [] => []
  | (k, vs) :: rest => if k = key then vs else Values.index rest key

/-- The parts of `*http.Request` the handler reads: the remote address, the
printed form of the URL, and the parsed query `r.URL.Query()`. -/
structure Request where
  RemoteAddr : String
  URL : String
  Query : Values

/-- The state of an `http.ResponseWriter`: the header map, whether the status
line has been written and with which code, and the body bytes written so far. -/
structure ResponseWriter where
  header : Header
  wroteHeader : Bool
  status : Nat
  body : String
deriving DecidableEq, Repr

/-- The response writer the server hands to a handler. -/
def ResponseWriter.fresh : ResponseWriter :=
  { header := [], wroteHeader := false, status := 0, body := "" }

/-- The method `w.WriteHeader(code)`; a second call is ignored. -/
def ResponseWriter.WriteHeader (w : ResponseWriter) (code : Nat) : ResponseWriter :=
  if w.wroteHeader then w else { w with wroteHeader := true, status := code }

/-- The method `w.Write(data)`: the first write sends the status line with `200` when the
handler has not sent one, then the data is appended to the body. -/
def ResponseWriter.Write (w : ResponseWriter) (data : String) : ResponseWriter :=
  let w1 := if w.wroteHeader then w else w.WriteHeader 200
  { w1 with body := w1.body ++ data }

/-- What the server does when the handler has returned: a response whose status
line was never written gets `200`. -/
def ResponseWriter.finishRequest (w : ResponseWriter) : ResponseWriter :=
  if w.wroteHeader then w else w.WriteHeader 200

/-! ## Effects -/

/-- The operations the program performs, in the order it performs them. -/
inductive Event where
  /-- A line given to `log.Printf` (the logger's own prefix is left out). -/
  | log (line : String)
  /-- Text printed to standard output by `fmt.Printf` or `fmt.Println`. -/
  | stdout (text : String)
  /-- One call of `clientset.CoreV1().Pods(ns).Get(ctx, name, opts)`. -/
  | apiGet (ns name : String)
  /-- One call of `w.Header().Set(key, value)`. -/
  | headerSet (key value : String)
  /-- One call of `w.WriteHeader(code)` made by the handler itself. -/
  | writeHeader (code : Nat)
  /-- One write of bytes to the response body. -/
  | write (data : String)
deriving DecidableEq, Repr

/-- Whether an event is a call of the orchestration API. -/
def Event.isApiGet : Event → Bool
  | .apiGet _ _ => true
  | _ => false

/-- Whether an event is an explicit `WriteHeader` call. -/
def Event.isWriteHeader : Event → Bool
  | .writeHeader _ => true
  | _ => false

/-- How a function call ends: it returns, or it panics with a value. -/
inductive Outcome where
  | returned
  | panicked (value : String)
deriving DecidableEq, Repr

/-! ## fmt -/

/-- The flag characters `fmt` accepts after a percent sign. -/
def fmtIsFlag (c : Char) : Bool :=
  c = '#' || c = '0' || c = '+' || c = '-' || c = ' '

/-- Drops the leading flag characters. -/
def fmtSkipFlags : List Char → List Char
  | [] => []
  | c :: rest => if fmtIsFlag c then fmtSkipFlags rest else c :: rest

/-- Drops the leading decimal digits (a width or a precision). -/
def fmtSkipDigits : List Char → List Char
  | [] => []
  | c :: rest => if c.isDigit then fmtSkipDigits rest else c :: rest

/-- The formatting loop of `fmt` (`doPrintf`) run with a format and NO operands:
text outside verbs is copied; `%%` gives a percent sign; a verb finds no
operand and prints `%!v(MISSING)`; a percent sign with no verb after it
prints `%!(NOVERB)`.  Flags, width and precision are skipped.  Explicit
argument indexes and `*` are not modelled. -/
def doPrintf : Nat → List Char → List Char
  | 0, _ => []
  | _ + 1, [] => []
  | fuel + 1, c :: rest =>
    if c ≠ '%' then c :: doPrintf fuel rest
    else
      let afterWidth := fmtSkipDigits (fmtSkipFlags rest)
      let afterPrec :=
        match afterWidth with
        | '.' :: t => fmtSkipDigits t
        | other => other
      match afterPrec with
      | [] => "%!(NOVERB)".data
      | v :: t =>
        (if v = '%' then ['%'] else "%!".data ++ [v] ++ "(MISSING)".data) ++ doPrintf fuel t

/-- The text `fmt.Fprintf(w, format)` writes when no operand follows the format. -/
def Sprintf0 (format : String) : String :=
  String.mk (doPrintf format.data.length format.data)

/-! ## encoding/json -/

/-- The table `htmlSafeSet` of `encoding/json`: the ASCII characters written
without escaping when HTML escaping is on (the encoder's default). -/
def htmlSafeSet (c : Char) : Bool :=
  decide (0x20 ≤ c.toNat) && decide (c.toNat < 0x80) &&
    !(c = '"' || c = '&' || c = '<' || c = '>' || c = '\\')

/-- The lower-case hexadecimal digit of `n % 16`. -/
def hexDigit (n : Nat) : Char :=
  "0123456789abcdef".data.getD (n % 16) '0'

/-- The escape `encoding/json` writes for one character, or the character
itself when it needs none. -/
def escapeChar (c : Char) : List Char :=
  if c.toNat < 0x80 then
    if htmlSafeSet c then [c]
    else if c = '\\' ∨ c = '"' then ['\\', c]
    else if c = Char.ofNat 8 then ['\\', 'b']
    else if c = Char.ofNat 12 then ['\\', 'f']
    else if c = '\n' then ['\\', 'n']
    else if c = '\r' then ['\\', 'r']
    else if c = '\t' then ['\\', 't']
    else ['\\', 'u', '0', '0', hexDigit (c.toNat / 16), hexDigit c.toNat]
  else if c.toNat = 0x2028 ∨ c.toNat = 0x2029 then
    ['\\', 'u', '2', '0', '2', hexDigit c.toNat]
  else [c]

/-- The function `appendString` of `encoding/json` with HTML escaping on: the
JSON string literal for `s`. -/
def appendString (s : String) : String :=
  String.mk ('"' :: (s.data.flatMap escapeChar ++ ['"']))

/-- The response record of the program. -/
structure NodeInfo where
  HostIP : String
deriving DecidableEq, Repr

/-- The bytes `json.NewEncoder(w).Encode(v)` writes for a `NodeInfo`: the
compact object with the one member `HostIP`, followed by a newline. -/
def Encode (v : NodeInfo) : String :=
  "\x7b\"HostIP\":" ++ appendString v.HostIP ++ "\x7d" ++ "\n"

/-! ## path/filepath (Unix) -/

/-- The write buffer of `filepath.Clean` and the index `dotdot` where
backtracking must stop. -/
structure CleanState where
  out : List Char
  dotdot : Nat
deriving DecidableEq, Repr

/-- The backtracking scan of `Clean`, started after the first `out.w--`: while
`out.w > dotdot` and the byte at `out.w` is not a separator, `out.w--`. -/
def cleanBacktrack (buf : List Char) (dotdot : Nat) : Nat → Nat
  | 0 => 0
  | w + 1 =>
    if dotdot < w + 1 ∧ buf.getD (w + 1) '/' ≠ '/' then cleanBacktrack buf dotdot w
    else w + 1

/-- The `..` case of `Clean`. -/
def cleanDotDot (rooted : Bool) (st : CleanState) : CleanState :=
  if st.dotdot < st.out.length then
    { st with out := st.out.take (cleanBacktrack st.out st.dotdot (st.out.length - 1)) }
  else if !rooted then
    let out1 := if 0 < st.out.length then st.out ++ ['/'] else st.out
    let out2 := out1 ++ ['.', '.']
    { out := out2, dotdot := out2.length }
  else st

/-- The "real path element" case of `Clean`: a separator when the buffer holds
more than the root, then the element. -/
def cleanElement (rooted : Bool) (st : CleanState) (element : List Char) : CleanState :=
  let out1 :=
    if (rooted = true ∧ st.out.length ≠ 1) ∨ (rooted = false ∧ st.out.length ≠ 0)
    then st.out ++ ['/'] else st.out
  { st with out := out1 ++ element }

/-- The main loop of `filepath.Clean` over the unread part of the path.  Every
turn reads at least one character, so a fuel of the length of the path runs
the loop to its end. -/
def cleanLoop (rooted : Bool) : Nat → List Char → CleanState → CleanState
  | 0, _, st => st
  | _ + 1, [], st => st
  | fuel + 1, c :: rest, st =>
    if c = '/' then cleanLoop rooted fuel rest st
    else if c = '.' ∧ (rest = [] ∨ rest.head? = some '/') then
      cleanLoop rooted fuel rest st
    else if c = '.' ∧ rest.head? = some '.' ∧
        (rest.tail = [] ∨ rest.tail.head? = some '/') then
      cleanLoop rooted fuel rest.tail (cleanDotDot rooted st)
    else
      cleanLoop rooted fuel (rest.dropWhile (fun x => x ≠ '/'))
        (cleanElement rooted st (c :: rest.takeWhile (fun x => x ≠ '/')))

/-- The function `filepath.Clean` on Unix. -/
def Clean (path : String) : String :=
  if path.data = [] then "."
  else
    let rooted : Bool := path.data.head? = some '/'
    let st0 : CleanState := if rooted then { out := ['/'], dotdot := 1 } else { out := [], dotdot := 0 }
    let st := cleanLoop rooted path.data.length (if rooted then path.data.tail else path.data) st0
    if st.out.length = 0 then "." else String.mk st.out

/-- The function `filepath.Join` on Unix: the elements from the first non-empty
one on, joined by the separator and cleaned; the empty string when every
element is empty. -/
def Join (elem : List String) : String :=
  match elem.dropWhile (fun e => e = "") with
  | [] => ""
  | rest => Clean ("/".intercalate rest)

/-! ## The Kubernetes client -/

/-- The one attribute of a pod the program reads, `pod.Status.HostIP`. -/
structure Pod where
  HostIP : String
deriving DecidableEq, Repr

/-- A non-nil `error` returned by the client, seen through the three
observations the program makes of it. -/
structure K8sError where
  /-- The answer of `errors.IsNotFound(err)`. -/
  isNotFound : Bool
  /-- The field `ErrStatus.Message` when the dynamic type of the error is
  `*errors.StatusError`, and `none` for every other type. -/
  statusMessage : Option String
  /-- The answer of `err.Error()`. -/
  text : String
deriving DecidableEq, Repr

/-- The test `IsValidPathSegmentName` of the client library, as a boolean: a
name can be a path segment unless it is `.` or `..` or holds `/` or `%`. -/
def isValidPathSegmentName (name : String) : Bool :=
  name ≠ "." && name ≠ ".." && !name.data.contains '/' && !name.data.contains '%'

/-- The client `*kubernetes.Clientset` with the API server behind it. -/
structure Clientset where
  /-- What a get-by-name request that is sent comes back with: the answer of
  the API server for the namespace and the name, or the error of the transport;
  `none` is the nil error. -/
  server : String → String → Pod × Option K8sError
  /-- The text of the error with which the request builder refuses a namespace
  that is not a valid path segment. -/
  invalidNamespaceText : String → String
  /-- The text of the error with which the request builder refuses a non-empty
  name that is not a valid path segment. -/
  invalidNameText : String → String
  /-- The calls of `Pods(ns).Get(ctx, name, opts)` made on the client so far,
  as pairs of namespace and name. -/
  calls : List (String × String)
  /-- The requests that have gone out to the API server so far. -/
  sent : List (String × String)

/-- An error made by `fmt.Errorf`: not a not-found and not a `StatusError`. -/
def plainError (text : String) : K8sError :=
  { isNotFound := false, statusMessage := none, text := text }

/-- The error the request builder of the client (`Namespace`, then `Name`)
leaves in the request, if any: a namespace that is not a valid path segment, the
empty name, or a name that is not a valid path segment. A request that carries
such an error is not sent. -/
def Clientset.refusal (cs : Clientset) (ns name : String) : Option K8sError :=
  if !isValidPathSegmentName ns then some (plainError (cs.invalidNamespaceText ns))
  else if name = "" then some (plainError "resource name may not be empty")
  else if !isValidPathSegmentName name then some (plainError (cs.invalidNameText name))
  else none

/-- The pair `(pod, err)` that `Pods(ns).Get(ctx, name, opts)` returns: the error
of the request builder with an empty pod when the request is refused, and what
the sent request comes back with otherwise. -/
def Clientset.get (cs : Clientset) (ns name : String) : Pod × Option K8sError :=
  match cs.refusal ns name with
  | some e => ({ HostIP := "" }, some e)
  | none => cs.server ns name

/-- The client after one call of `Pods(ns).Get(ctx, name, opts)`: the call is
recorded, and so is the request when it is sent. -/
def Clientset.afterGet (cs : Clientset) (ns name : String) : Clientset :=
  { cs with
    calls := cs.calls ++ [(ns, name)],
    sent := if (cs.refusal ns name).isSome then cs.sent else cs.sent ++ [(ns, name)] }

/-- The call `Pods(ns).Get(ctx, name, opts)`: what it returns, and the client
after it. -/
def Clientset.Get (cs : Clientset) (ns name : String) :
    (Pod × Option K8sError) × Clientset :=
  (cs.get ns name, cs.afterGet ns name)

/-! ## pod2ip.go -/

/-- The port the server listens on. -/
def PORT : String := ":8585"

/-- The credentials path computed at the head of `connectToK8s`: the home
directory from the environment, `/root` when `HOME` is unset, joined with
`.kube` and `config`. -/
def configPath (LookupEnv : String → Option String) : String :=
  let home :=
    match LookupEnv "HOME" with
    | some value => value
    | none => "/root"
  Join [home, ".kube", "config"]

/-- The function `connectToK8s`, over the environment and the two client-library
constructors it calls; an `error` is the message given to `log.Fatalln`. -/
def connectToK8s {Config : Type} (LookupEnv : String → Option String)
    (BuildConfigFromFlags : String → String → Option Config)
    (NewForConfig : Config → Option Clientset) : Except String Clientset :=
  match BuildConfigFromFlags "" (configPath LookupEnv) with
  | none => .error "failed to create K8s config"
  | some config =>
    match NewForConfig config with
    | none => .error "Failed to create K8s clientset"
    | some clientset => .ok clientset

/-- The result of `queryPod`: the client after the call, the operations
performed, and either the returned pair or the panic value. -/
structure QueryResult where
  clientset : Clientset
  trace : List Event
  ret : Except String (String × Bool)

/-- The function `queryPod`: one get-by-name in namespace `default`, then the
four-way branch on the error. -/
def queryPod (clientset : Clientset) (podName : String) : QueryResult :=
  let ((pod, err), clientset1) := clientset.Get "default" podName
  let call := Event.apiGet "default" podName
  match err with
  | some e =>
    if e.isNotFound then
      { clientset := clientset1,
        trace := [call, .stdout ("Pod " ++ podName ++ " not found in default namespace\n")],
        ret := .ok ("Error: Pod not found", false) }
    else
      match e.statusMessage with
      | some message =>
        { clientset := clientset1,
          trace := [call, .stdout ("Error getting pod " ++ message ++ "\n")],
          ret := .ok ("Error: Pod not found", false) }
      | none =>
        { clientset := clientset1, trace := [call], ret := .error e.text }
  | none =>
    { clientset := clientset1,
      trace := [call,
        .stdout ("Found " ++ podName ++ " pod in default namespace\n"),
        .stdout (pod.HostIP ++ "\n")],
      ret := .ok (pod.HostIP, true) }

/-- The result of running the handler: the response writer and the client after
it, the operations performed, and how the call ended. -/
structure HandlerResult where
  w : ResponseWriter
  clientset : Clientset
  trace : List Event
  outcome : Outcome

/-- The function `processRequest`. -/
def processRequest (clientset : Clientset) (w : ResponseWriter) (r : Request) :
    HandlerResult :=
  let t0 := [Event.log (r.RemoteAddr ++ ": " ++ r.URL ++ "\n"),
             Event.headerSet "Access-Control-Allow-Origin" "*"]
  let w1 := { w with header := w.header.Set "Access-Control-Allow-Origin" "*" }
  let query := r.Query
  match query.index "podName" with
  | [] => { w := w1, clientset := clientset, trace := t0, outcome := .returned }
  | podName :: _ =>
    let q := queryPod clientset podName
    match q.ret with
    | .error value =>
      { w := w1, clientset := q.clientset, trace := t0 ++ q.trace, outcome := .panicked value }
    | .ok (response, success) =>
      if !success then
        let data := Sprintf0 response
        { w := w1.Write data, clientset := q.clientset,
          trace := t0 ++ q.trace ++ [.write data], outcome := .returned }
      else
        let responseJSON : NodeInfo := { HostIP := response }
        let data := Encode responseJSON
        { w := w1.Write data, clientset := q.clientset,
          trace := t0 ++ q.trace ++ [.write data], outcome := .returned }

/-! ## Definitions used in the proofs -/

/-- The characters `encoding/json` writes as they are inside a string literal:
the ASCII ones of `htmlSafeSet`, and every character from U+0080 on except the
two separators U+2028 and U+2029. -/
def jsonPlain (c : Char) : Bool :=
  htmlSafeSet c || (decide (0x80 ≤ c.toNat) && c.toNat != 0x2028 && c.toNat != 0x2029)

/-- The unread part of the path after one turn of the loop of `Clean` that
starts at the character `c` followed by `rest`. -/
def cleanNext (c : Char) (rest : List Char) : List Char :=
  if c = '/' then rest
  else if c = '.' ∧ (rest = [] ∨ rest.head? = some '/') then rest
  else if c = '.' ∧ rest.head? = some '.' ∧
      (rest.tail = [] ∨ rest.tail.head? = some '/') then rest.tail
  else rest.dropWhile (fun x => x ≠ '/')

/-- The buffer after one turn of the loop of `Clean` that starts at the
character `c` followed by `rest`. -/
def cleanStep (rooted : Bool) (c : Char) (rest : List Char) (st : CleanState) : CleanState :=
  if c = '/' then st
  else if c = '.' ∧ (rest = [] ∨ rest.head? = some '/') then st
  else if c = '.' ∧ rest.head? = some '.' ∧
      (rest.tail = [] ∨ rest.tail.head? = some '/') then cleanDotDot rooted st
  else cleanElement rooted st (c :: rest.takeWhile (fun x => x ≠ '/'))

/-! ## Inputs of the closed statements -/

/-- The text of the error for a refused name, for names that `%q` prints as
they are between double quotes. -/
def refusedText (kind name : String) : String :=
  let reasons :=
    if name = "." then ["may not be \x27.\x27"]
    else if name = ".." then ["may not be \x27..\x27"]
    else (if name.data.contains '/' then ["may not contain \x27/\x27"] else []) ++
      (if name.data.contains '%' then ["may not contain \x27%\x27"] else [])
  "invalid " ++ kind ++ " \"" ++ name ++ "\": [" ++ " ".intercalate reasons ++ "]"

/-- A client on which no call has been made, in front of the given server. -/
def newClient (server : String → String → Pod × Option K8sError) : Clientset :=
  { server := server,
    invalidNamespaceText := refusedText "namespace",
    invalidNameText := refusedText "resource name",
    calls := [], sent := [] }

/-- The answer of the API server for a pod it does not hold. -/
def notFoundAnswer (name : String) : Pod × Option K8sError :=
  ({ HostIP := "" },
    some { isNotFound := true, statusMessage := some ("pods \"" ++ name ++ "\" not found"),
           text := "pods \"" ++ name ++ "\" not found" })

/-- A cluster holding the pod `web-1` on host `10.0.0.5` in namespace `default`
and nothing else. -/
def clusterWeb1 : Clientset :=
  newClient (fun ns name =>
    if ns = "default" ∧ name = "web-1" then ({ HostIP := "10.0.0.5" }, none)
    else notFoundAnswer name)

/-- The cluster `clusterWeb1` with one more pod: a `ghost` on host `10.9.9.9` in
namespace `kube-system`. -/
def clusterWeb1AndSystemGhost : Clientset :=
  newClient (fun ns name =>
    if ns = "default" ∧ name = "web-1" then ({ HostIP := "10.0.0.5" }, none)
    else if ns = "kube-system" ∧ name = "ghost" then ({ HostIP := "10.9.9.9" }, none)
    else notFoundAnswer name)

/-- A cluster that refuses every request with a `Forbidden` status. -/
def clusterForbidden : Clientset :=
  newClient (fun _ _ =>
    ({ HostIP := "" },
      some { isNotFound := false, statusMessage := some "pods is forbidden",
             text := "pods is forbidden" }))

/-- A cluster that cannot be reached. -/
def clusterDown : Clientset :=
  newClient (fun _ _ =>
    ({ HostIP := "" },
      some { isNotFound := false, statusMessage := none,
             text := "dial tcp 10.96.0.1:443: connect: connection refused" }))

/-- The request `GET /resolvePod/?podName=web-1`. -/
def requestWeb1 : Request :=
  { RemoteAddr := "10.1.2.3:40000", URL := "/resolvePod/?podName=web-1",
    Query := [("podName", ["web-1"])] }

/-- The request `GET /resolvePod/?podName=ghost`. -/
def requestGhost : Request :=
  { RemoteAddr := "10.1.2.3:40000", URL := "/resolvePod/?podName=ghost",
    Query := [("podName", ["ghost"])] }

/-- The request `GET /resolvePod/?podName=`, whose parsed query maps `podName`
to the one-element list holding the empty string. -/
def requestEmptyName : Request :=
  { RemoteAddr := "10.1.2.3:40000", URL := "/resolvePod/?podName=",
    Query := [("podName", [""])] }

/-- The request `GET /resolvePod/`, with no query string. -/
def requestNoQuery : Request :=
  { RemoteAddr := "10.1.2.3:40000", URL := "/resolvePod/", Query := [] }

/-- An environment in which `HOME` is set to the empty string. -/
def envHomeEmpty : String → Option String :=
  fun name => if name = "HOME" then some "" else none

/-- An environment in which `HOME` is set with a trailing separator. -/
def envHomeTrailingSlash : String → Option String :=
  fun name => if name = "HOME" then some "/home/u/" else none

/-- An environment in which `HOME` is set to `/home/u`. -/
def envHomeUser : String → Option String :=
  fun name => if name = "HOME" then some "/home/u" else none

/-! ## Lemmas -/

theorem Sprintf0_notFound : Sprintf0 "Error: Pod not found" = "Error: Pod not found" := by
  decide

theorem Write_header (w : ResponseWriter) (data : String) :
    (w.Write data).header = w.header := by
  unfold ResponseWriter.Write ResponseWriter.WriteHeader
  split <;> simp_all

theorem Write_body (w : ResponseWriter) (data : String) :
    (w.Write data).body = w.body ++ data := by
  unfold ResponseWriter.Write ResponseWriter.WriteHeader
  split <;> simp_all

theorem Header_values_Set (h : Header) (key value : String) :
    (h.Set key value).values key = [value] := by
  simp [Header.Set, Header.values]

/-- The handler on a request without a `podName` value. -/
theorem processRequest_absent (cs : Clientset) (w : ResponseWriter) (r : Request)
    (h : r.Query.index "podName" = []) :
    processRequest cs w r =
      { w := { w with header := w.header.Set "Access-Control-Allow-Origin" "*" },
        clientset := cs,
        trace := [Event.log (r.RemoteAddr ++ ": " ++ r.URL ++ "\n"),
                  Event.headerSet "Access-Control-Allow-Origin" "*"],
        outcome := .returned } := by
  simp [processRequest, h]

/-- The handler when the lookup succeeds. -/
theorem processRequest_found (cs : Clientset) (w : ResponseWriter) (r : Request)
    (podName : String) (rest : List String) (pod : Pod)
    (h : r.Query.index "podName" = podName :: rest)
    (hget : cs.get "default" podName = (pod, none)) :
    processRequest cs w r =
      { w := ResponseWriter.Write
          { w with header := w.header.Set "Access-Control-Allow-Origin" "*" }
          (Encode { HostIP := pod.HostIP }),
        clientset := cs.afterGet "default" podName,
        trace := [Event.log (r.RemoteAddr ++ ": " ++ r.URL ++ "\n"),
                  Event.headerSet "Access-Control-Allow-Origin" "*",
                  Event.apiGet "default" podName,
                  Event.stdout ("Found " ++ podName ++ " pod in default namespace\n"),
                  Event.stdout (pod.HostIP ++ "\n"),
                  Event.write (Encode { HostIP := pod.HostIP })],
        outcome := .returned } := by
  simp [processRequest, h, queryPod, Clientset.Get, hget]

/-- The handler when the lookup answers not-found. -/
theorem processRequest_notFound (cs : Clientset) (w : ResponseWriter) (r : Request)
    (podName : String) (rest : List String) (pod : Pod) (e : K8sError)
    (h : r.Query.index "podName" = podName :: rest)
    (hget : cs.get "default" podName = (pod, some e)) (hnf : e.isNotFound = true) :
    processRequest cs w r =
      { w := ResponseWriter.Write
          { w with header := w.header.Set "Access-Control-Allow-Origin" "*" }
          "Error: Pod not found",
        clientset := cs.afterGet "default" podName,
        trace := [Event.log (r.RemoteAddr ++ ": " ++ r.URL ++ "\n"),
                  Event.headerSet "Access-Control-Allow-Origin" "*",
                  Event.apiGet "default" podName,
                  Event.stdout ("Pod " ++ podName ++ " not found in default namespace\n"),
                  Event.write "Error: Pod not found"],
        outcome := .returned } := by
  simp [processRequest, h, queryPod, Clientset.Get, hget, hnf, Sprintf0_notFound]

/-- The handler when the lookup fails with a `StatusError` that is not a
not-found. -/
theorem processRequest_status (cs : Clientset) (w : ResponseWriter) (r : Request)
    (podName : String) (rest : List String) (pod : Pod) (e : K8sError) (message : String)
    (h : r.Query.index "podName" = podName :: rest)
    (hget : cs.get "default" podName = (pod, some e)) (hnf : e.isNotFound = false)
    (hst : e.statusMessage = some message) :
    processRequest cs w r =
      { w := ResponseWriter.Write
          { w with header := w.header.Set "Access-Control-Allow-Origin" "*" }
          "Error: Pod not found",
        clientset := cs.afterGet "default" podName,
        trace := [Event.log (r.RemoteAddr ++ ": " ++ r.URL ++ "\n"),
                  Event.headerSet "Access-Control-Allow-Origin" "*",
                  Event.apiGet "default" podName,
                  Event.stdout ("Error getting pod " ++ message ++ "\n"),
                  Event.write "Error: Pod not found"],
        outcome := .returned } := by
  simp [processRequest, h, queryPod, Clientset.Get, hget, hnf, hst, Sprintf0_notFound]

/-- The handler when the lookup fails with any other error. -/
theorem processRequest_panic (cs : Clientset) (w : ResponseWriter) (r : Request)
    (podName : String) (rest : List String) (pod : Pod) (e : K8sError)
    (h : r.Query.index "podName" = podName :: rest)
    (hget : cs.get "default" podName = (pod, some e)) (hnf : e.isNotFound = false)
    (hst : e.statusMessage = none) :
    processRequest cs w r =
      { w := { w with header := w.header.Set "Access-Control-Allow-Origin" "*" },
        clientset := cs.afterGet "default" podName,
        trace := [Event.log (r.RemoteAddr ++ ": " ++ r.URL ++ "\n"),
                  Event.headerSet "Access-Control-Allow-Origin" "*",
                  Event.apiGet "default" podName],
        outcome := .panicked e.text } := by
  simp [processRequest, h, queryPod, Clientset.Get, hget, hnf, hst]

/-- The five ways the handler can run, by the query and the answer of the API. -/
theorem processRequest_cases (cs : Clientset) (r : Request) :
    r.Query.index "podName" = [] ∨
    ∃ podName rest pod, r.Query.index "podName" = podName :: rest ∧
      (cs.get "default" podName = (pod, none) ∨
       ∃ e, cs.get "default" podName = (pod, some e) ∧
        (e.isNotFound = true ∨
         (e.isNotFound = false ∧ ∃ message, e.statusMessage = some message) ∨
         (e.isNotFound = false ∧ e.statusMessage = none))) := by
  cases hq : r.Query.index "podName" with
  | nil => exact Or.inl rfl
  | cons podName rest =>
    right
    refine ⟨podName, rest, (cs.get "default" podName).1, rfl, ?_⟩
    cases he : (cs.get "default" podName).2 with
    | none => left; rw [← he]
    | some e =>
      right
      refine ⟨e, by rw [← he], ?_⟩
      cases hnf : e.isNotFound with
      | true => exact Or.inl rfl
      | false =>
        right
        cases hst : e.statusMessage with
        | none => exact Or.inr ⟨rfl, rfl⟩
        | some message => exact Or.inl ⟨rfl, message, rfl⟩

/-- The response a returning handler leaves, once the server has finished it,
with the body set aside: it depends on the writer the handler was given and on
nothing else. -/
theorem processRequest_frame (cs : Clientset) (w : ResponseWriter) (r : Request)
    (hret : (processRequest cs w r).outcome = .returned) :
    { (processRequest cs w r).w.finishRequest with body := "" } =
      { header := w.header.Set "Access-Control-Allow-Origin" "*",
        wroteHeader := true,
        status := if w.wroteHeader then w.status else 200,
        body := "" } ∧
    (processRequest cs w r).trace.filter Event.isWriteHeader = [] := by
  have hw : ∀ (v : ResponseWriter) (data : String),
      { (v.Write data).finishRequest with body := "" } =
        { header := v.header, wroteHeader := true,
          status := if v.wroteHeader then v.status else 200, body := "" } := by
    intro v data
    unfold ResponseWriter.finishRequest ResponseWriter.Write ResponseWriter.WriteHeader
    cases h : v.wroteHeader <;> simp [h]
  have hf : ∀ v : ResponseWriter,
      { v.finishRequest with body := "" } =
        { header := v.header, wroteHeader := true,
          status := if v.wroteHeader then v.status else 200, body := "" } := by
    intro v
    unfold ResponseWriter.finishRequest ResponseWriter.WriteHeader
    cases h : v.wroteHeader <;> simp [h]
  rcases processRequest_cases cs r with hq | ⟨podName, rest, pod, hq, hok | ⟨e, hget, hnf | ⟨hnf, message, hst⟩ | ⟨hnf, hst⟩⟩⟩
  · rw [processRequest_absent cs w r hq]
    exact ⟨by rw [hf], by simp [Event.isWriteHeader]⟩
  · rw [processRequest_found cs w r podName rest pod hq hok]
    exact ⟨by rw [hw], by simp [Event.isWriteHeader]⟩
  · rw [processRequest_notFound cs w r podName rest pod e hq hget hnf]
    exact ⟨by rw [hw], by simp [Event.isWriteHeader]⟩
  · rw [processRequest_status cs w r podName rest pod e message hq hget hnf hst]
    exact ⟨by rw [hw], by simp [Event.isWriteHeader]⟩
  · rw [processRequest_panic cs w r podName rest pod e hq hget hnf hst] at hret
    simp at hret

theorem escapeChar_plain (c : Char) (h : jsonPlain c = true) : escapeChar c = [c] := by
  unfold jsonPlain at h
  unfold escapeChar
  by_cases hlt : c.toNat < 0x80
  · have hs : htmlSafeSet c = true := by
      rcases Bool.or_eq_true _ _ |>.mp h with h1 | h2
      · exact h1
      · simp at h2
        omega
    simp [hlt, hs]
  · have h2 : c.toNat ≠ 0x2028 ∧ c.toNat ≠ 0x2029 := by
      rcases Bool.or_eq_true _ _ |>.mp h with h1 | h2
      · unfold htmlSafeSet at h1
        simp at h1
        omega
      · simp at h2
        exact ⟨h2.1.2, h2.2⟩
    simp [hlt, h2.1, h2.2]

theorem flatMap_escapeChar_plain (l : List Char) (h : ∀ c ∈ l, jsonPlain c = true) :
    l.flatMap escapeChar = l := by
  induction l with
  | nil => rfl
  | cons c rest ih =>
    have hc := escapeChar_plain c (h c (List.mem_cons_self _ _))
    have hr := ih (fun d hd => h d (List.mem_cons_of_mem _ hd))
    simp [List.flatMap_cons, hc, hr]

theorem appendString_plain (s : String) (h : ∀ c ∈ s.data, jsonPlain c = true) :
    appendString s = "\"" ++ s ++ "\"" := by
  unfold appendString
  rw [flatMap_escapeChar_plain s.data h]
  apply String.ext
  simp

theorem cleanLoop_nil (rooted : Bool) (f : Nat) (st : CleanState) :
    cleanLoop rooted f [] st = st := by
  cases f <;> rfl

theorem cleanLoop_fuel (rooted : Bool) :
    ∀ (f : Nat) (xs : List Char) (st : CleanState), xs.length ≤ f →
      cleanLoop rooted (f + 1) xs st = cleanLoop rooted f xs st := by
  intro f
  induction f with
  | zero =>
    intro xs st h
    have : xs = [] := List.eq_nil_of_length_eq_zero (Nat.le_zero.mp h)
    subst this
    rfl
  | succ f ih =>
    intro xs st h
    cases xs with
    | nil => rfl
    | cons c rest =>
      have hrest : rest.length ≤ f := by simpa using h
      have htail : rest.tail.length ≤ f := by
        have := List.length_tail rest
        omega
      have hdrop : (rest.dropWhile (fun x => x ≠ '/')).length ≤ f :=
        le_trans (List.dropWhile_suffix _).length_le hrest
      simp only [cleanLoop]
      rw [ih rest st hrest, ih rest.tail _ htail, ih _ _ hdrop]

theorem cleanLoop_fuel_le (rooted : Bool) (xs : List Char) (st : CleanState) :
    ∀ (g f : Nat), xs.length ≤ f →
      cleanLoop rooted (f + g) xs st = cleanLoop rooted f xs st := by
  intro g
  induction g with
  | zero => intro f _; rfl
  | succ g ih =>
    intro f h
    rw [← Nat.add_assoc, cleanLoop_fuel rooted (f + g) xs st (by omega), ih f h]

theorem takeWhile_append_stop (p : Char → Bool) (sep : Char) (hp : p sep = false)
    (xs ys : List Char) : (xs ++ sep :: ys).takeWhile p = xs.takeWhile p := by
  induction xs with
  | nil => simp [List.takeWhile, hp]
  | cons a rest ih =>
    cases ha : p a <;> simp [List.takeWhile, ha, ih]

theorem dropWhile_append_stop (p : Char → Bool) (sep : Char) (hp : p sep = false)
    (xs ys : List Char) : (xs ++ sep :: ys).dropWhile p = xs.dropWhile p ++ sep :: ys := by
  induction xs with
  | nil => simp [List.dropWhile, hp]
  | cons a rest ih =>
    cases ha : p a <;> simp [List.dropWhile, ha, ih]

theorem cleanLoop_succ (rooted : Bool) (n : Nat) (c : Char) (rest : List Char)
    (st : CleanState) :
    cleanLoop rooted (n + 1) (c :: rest) st =
      cleanLoop rooted n (cleanNext c rest) (cleanStep rooted c rest st) := by
  simp only [cleanLoop, cleanNext, cleanStep]
  split_ifs <;> rfl

theorem cleanNext_length (c : Char) (rest : List Char) :
    (cleanNext c rest).length ≤ rest.length := by
  unfold cleanNext
  split_ifs
  · exact le_rfl
  · exact le_rfl
  · simp
  · exact (List.dropWhile_suffix _).length_le

theorem cleanNext_append (c : Char) (rest ys : List Char) :
    cleanNext c (rest ++ '/' :: ys) = cleanNext c rest ++ '/' :: ys := by
  have hd := dropWhile_append_stop (fun x => x ≠ '/') '/' (by simp)
  unfold cleanNext
  rcases rest with _ | ⟨d, _ | ⟨e, rest3⟩⟩
  · by_cases h1 : c = '/' <;> by_cases h2 : c = '.' <;> simp [h1, h2]
  · have := hd [d] ys
    by_cases h1 : c = '/' <;> by_cases h2 : c = '.' <;> by_cases h3 : d = '/' <;>
      by_cases h4 : d = '.' <;> simp_all
  · have := hd (d :: e :: rest3) ys
    by_cases h1 : c = '/' <;> by_cases h2 : c = '.' <;> by_cases h3 : d = '/' <;>
      by_cases h4 : d = '.' <;> by_cases h5 : e = '/' <;> simp_all

theorem cleanStep_append (rooted : Bool) (c : Char) (rest ys : List Char) (st : CleanState) :
    cleanStep rooted c (rest ++ '/' :: ys) st = cleanStep rooted c rest st := by
  have ht := takeWhile_append_stop (fun x => x ≠ '/') '/' (by simp)
  unfold cleanStep
  rcases rest with _ | ⟨d, _ | ⟨e, rest3⟩⟩
  · by_cases h1 : c = '/' <;> by_cases h2 : c = '.' <;> simp [h1, h2]
  · have := ht [d] ys
    by_cases h1 : c = '/' <;> by_cases h2 : c = '.' <;> by_cases h3 : d = '/' <;>
      by_cases h4 : d = '.' <;> simp_all
  · have := ht (d :: e :: rest3) ys
    by_cases h1 : c = '/' <;> by_cases h2 : c = '.' <;> by_cases h3 : d = '/' <;>
      by_cases h4 : d = '.' <;> by_cases h5 : e = '/' <;> simp_all

/-- Running the loop of `Clean` over a path that continues with a separator is
running it over the first part and then over the rest. -/
theorem cleanLoop_append (rooted : Bool) (g : Nat) (ys : List Char)
    (hg : ys.length + 1 ≤ g) :
    ∀ (f : Nat) (xs : List Char) (st : CleanState), xs.length ≤ f →
      cleanLoop rooted (g + f) (xs ++ '/' :: ys) st =
        cleanLoop rooted g ('/' :: ys) (cleanLoop rooted f xs st) := by
  intro f
  induction f with
  | zero =>
    intro xs st h
    have : xs = [] := List.eq_nil_of_length_eq_zero (Nat.le_zero.mp h)
    subst this
    rfl
  | succ f ih =>
    intro xs st h
    cases xs with
    | nil =>
      rw [cleanLoop_nil, List.nil_append]
      exact cleanLoop_fuel_le rooted _ st (f + 1) g (by simpa using hg)
    | cons c rest =>
      have hrest : rest.length ≤ f := by simpa using h
      have hfuel : g + (f + 1) = (g + f) + 1 := by omega
      rw [hfuel, List.cons_append, cleanLoop_succ, cleanLoop_succ, cleanNext_append,
        cleanStep_append]
      exact ih _ _ (le_trans (cleanNext_length c rest) hrest)

/-- The loop of `Clean` over the tail `/.kube/config` of a path, from a buffer
that already holds more than the root. -/
theorem cleanLoop_kube_config (rooted : Bool) (st : CleanState)
    (hroom : (rooted = true ∧ st.out.length ≠ 1) ∨ (rooted = false ∧ st.out.length ≠ 0)) :
    (cleanLoop rooted 13 "/.kube/config".data st).out = st.out ++ "/.kube/config".data := by
  cases rooted with
  | true =>
    have h1 : st.out.length ≠ 1 := by simpa using hroom
    simp [cleanLoop, cleanElement, h1, List.takeWhile, List.dropWhile]
  | false =>
    have h0 : st.out ≠ [] := by simpa using hroom
    simp [cleanLoop, cleanElement, h0, List.takeWhile, List.dropWhile]

/-- The way `Clean` runs its loop, for a path that is not empty. -/
theorem Clean_cons (c : Char) (rest : List Char) :
    Clean (String.mk (c :: rest)) =
      (let rooted : Bool := decide (c = '/')
       let st := cleanLoop rooted (rest.length + 1) (if rooted then rest else c :: rest)
          (if rooted then { out := ['/'], dotdot := 1 } else { out := [], dotdot := 0 })
       if st.out.length = 0 then "." else String.mk st.out) := by
  simp [Clean]

/-- A path that `Clean` leaves as it is, other than the root and the dot, stays
as it is when `/.kube/config` is put after it. -/
theorem Clean_append_kube_config (home : String) (hclean : Clean home = home)
    (hroot : home ≠ "/") (hdot : home ≠ ".") :
    Clean (home ++ "/.kube/config") = home ++ "/.kube/config" := by
  obtain ⟨p⟩ := home
  have hne : p ≠ [] := by
    intro h
    subst h
    simp [Clean] at hclean
  obtain ⟨c, rest, rfl⟩ := List.exists_cons_of_ne_nil hne
  have happ : (String.mk (c :: rest) ++ "/.kube/config") =
      String.mk (c :: (rest ++ '/' :: ".kube/config".data)) := by
    apply String.ext
    simp
  rw [happ, Clean_cons]
  rw [Clean_cons] at hclean
  simp only at hclean ⊢
  generalize hst0 : (if decide (c = '/') = true then ({ out := ['/'], dotdot := 1 } : CleanState)
    else { out := [], dotdot := 0 }) = st0 at hclean ⊢
  have hbody : (if decide (c = '/') = true then rest ++ '/' :: ".kube/config".data
      else c :: (rest ++ '/' :: ".kube/config".data)) =
      (if decide (c = '/') = true then rest else c :: rest) ++ '/' :: ".kube/config".data := by
    split <;> simp
  have hlen : (if decide (c = '/') = true then rest else c :: rest).length ≤ rest.length + 1 := by
    split <;> simp
  generalize (if decide (c = '/') = true then rest else c :: rest) = body at hclean hbody hlen
  have hfuel : (rest ++ '/' :: ".kube/config".data).length + 1 = 13 + (rest.length + 1) := by
    simp
    omega
  rw [hbody, hfuel, cleanLoop_append (decide (c = '/')) 13 ".kube/config".data (by decide)
    (rest.length + 1) body st0 hlen]
  generalize hstH : cleanLoop (decide (c = '/')) (rest.length + 1) body st0 = stH at hclean ⊢
  have hout : stH.out = c :: rest := by
    by_cases hz : stH.out.length = 0
    · rw [if_pos hz] at hclean
      exact absurd hclean.symm hdot
    · rw [if_neg hz] at hclean
      exact congrArg String.data hclean
  have hroom : (decide (c = '/') = true ∧ stH.out.length ≠ 1) ∨
      (decide (c = '/') = false ∧ stH.out.length ≠ 0) := by
    by_cases hc : c = '/'
    · left
      refine ⟨by simp [hc], ?_⟩
      intro h1
      rw [hout] at h1
      have hnil : rest = [] := List.eq_nil_of_length_eq_zero (by simpa using h1)
      apply hroot
      rw [hc, hnil]
    · right
      exact ⟨by simp [hc], by rw [hout]; simp⟩
  have hfin := cleanLoop_kube_config (decide (c = '/')) stH hroom
  have hdata : ('/' :: ".kube/config".data) = "/.kube/config".data := rfl
  rw [hdata]
  have hnz : ¬ (cleanLoop (decide (c = '/')) 13 "/.kube/config".data stH).out.length = 0 := by
    rw [hfin, hout]
    simp
  rw [if_neg hnz]
  apply String.ext
  rw [hfin, hout]
  rfl

/-- The credentials path when `HOME` is set to a path that is not empty. -/
theorem configPath_of_home (LookupEnv : String → Option String) (home : String)
    (henv : LookupEnv "HOME" = some home) (hne : home ≠ "") :
    configPath LookupEnv = Clean (home ++ "/.kube/config") := by
  have happ : home ++ "/" ++ ".kube" ++ "/" ++ "config" = home ++ "/.kube/config" := by
    apply String.ext
    simp
  simp [configPath, henv, Join, List.dropWhile, hne, String.intercalate,
    String.intercalate.go, happ]

/-- The client refuses the empty name in namespace `default`, whatever the
server holds. -/
theorem Clientset_get_empty_name (cs : Clientset) :
    cs.get "default" "" =
      ({ HostIP := "" }, some (plainError "resource name may not be empty")) := by
  have hv : isValidPathSegmentName "default" = true := by decide
  simp [Clientset.get, Clientset.refusal, hv]

/-- A call with the empty name in namespace `default` is recorded and sends
nothing. -/
theorem Clientset_afterGet_empty_name (cs : Clientset) :
    (cs.afterGet "default" "").calls = cs.calls ++ [("default", "")] ∧
    (cs.afterGet "default" "").sent = cs.sent := by
  have hv : isValidPathSegmentName "default" = true := by decide
  simp [Clientset.afterGet, Clientset.refusal, hv]

/-- The value `queryPod` ends with, read off the answer of the one call
`Pods("default").Get` for the name. -/
theorem queryPod_ret (cs : Clientset) (podName : String) :
    (queryPod cs podName).ret =
      (match cs.get "default" podName with
       | (pod, none) => .ok (pod.HostIP, true)
       | (_, some e) =>
         if e.isNotFound = true ∨ e.statusMessage.isSome = true
         then .ok ("Error: Pod not found", false) else .error e.text) := by
  unfold queryPod Clientset.Get
  rcases hget : cs.get "default" podName with ⟨pod, err⟩
  cases err with
  | none => simp
  | some e =>
    cases hnf : e.isNotFound with
    | true => simp [hnf]
    | false => cases hst : e.statusMessage <;> simp [hnf, hst]

/-- The client and the trace `queryPod` ends with. -/
theorem queryPod_clientset (cs : Clientset) (podName : String) :
    (queryPod cs podName).clientset = cs.afterGet "default" podName ∧
    (queryPod cs podName).trace.filter Event.isApiGet = [Event.apiGet "default" podName] := by
  unfold queryPod Clientset.Get
  rcases hget : cs.get "default" podName with ⟨pod, err⟩
  cases err with
  | none => simp [Event.isApiGet]
  | some e =>
    cases hnf : e.isNotFound with
    | true => simp [hnf, Event.isApiGet]
    | false => cases hst : e.statusMessage <;> simp [hnf, hst, Event.isApiGet]

/-- The client a run of the handler ends with. -/
theorem processRequest_clientset (cs : Clientset) (w : ResponseWriter) (r : Request) :
    (processRequest cs w r).clientset =
      (match r.Query.index "podName" with
       | [] => cs
       | first :: _ => cs.afterGet "default" first) := by
  rcases processRequest_cases cs r with hq | ⟨name, rest, pod, hq, hok | ⟨e, hget, hnf | ⟨hnf, message, hst⟩ | ⟨hnf, hst⟩⟩⟩
  · rw [processRequest_absent cs w r hq, hq]
  · rw [processRequest_found cs w r name rest pod hq hok, hq]
  · rw [processRequest_notFound cs w r name rest pod e hq hget hnf, hq]
  · rw [processRequest_status cs w r name rest pod e message hq hget hnf hst, hq]
  · rw [processRequest_panic cs w r name rest pod e hq hget hnf hst, hq]

/-- The response, the trace and the outcome of a run of the handler are the
same on two clients that answer alike in namespace `default`. -/
theorem processRequest_congr (cs cs2 : Clientset) (w : ResponseWriter) (r : Request)
    (h : ∀ name, cs2.get "default" name = cs.get "default" name) :
    (processRequest cs2 w r).w = (processRequest cs w r).w ∧
    (processRequest cs2 w r).trace = (processRequest cs w r).trace ∧
    (processRequest cs2 w r).outcome = (processRequest cs w r).outcome := by
  rcases processRequest_cases cs r with hq | ⟨name, rest, pod, hq, hok | ⟨e, hget, hnf | ⟨hnf, message, hst⟩ | ⟨hnf, hst⟩⟩⟩
  · rw [processRequest_absent cs w r hq, processRequest_absent cs2 w r hq]
    exact ⟨rfl, rfl, rfl⟩
  · rw [processRequest_found cs w r name rest pod hq hok,
      processRequest_found cs2 w r name rest pod hq ((h name).trans hok)]
    exact ⟨rfl, rfl, rfl⟩
  · rw [processRequest_notFound cs w r name rest pod e hq hget hnf,
      processRequest_notFound cs2 w r name rest pod e hq ((h name).trans hget) hnf]
    exact ⟨rfl, rfl, rfl⟩
  · rw [processRequest_status cs w r name rest pod e message hq hget hnf hst,
      processRequest_status cs2 w r name rest pod e message hq ((h name).trans hget) hnf hst]
    exact ⟨rfl, rfl, rfl⟩
  · rw [processRequest_panic cs w r name rest pod e hq hget hnf hst,
      processRequest_panic cs2 w r name rest pod e hq ((h name).trans hget) hnf hst]
    exact ⟨rfl, rfl, rfl⟩

/-! ## The claims -/

/-- C1, as stated, fails: for the pod `web-1` on host `10.0.0.5` the body is not
the bare object, with or without a blank after the colon; a newline follows it. -/
theorem C1_body_has_trailing_newline :
    requestWeb1.Query.index "podName" = ["web-1"] ∧
    clusterWeb1.get "default" "web-1" = ({ HostIP := "10.0.0.5" }, none) ∧
    (processRequest clusterWeb1 .fresh requestWeb1).w.body
      = "\x7b\"HostIP\":\"10.0.0.5\"\x7d\n" ∧
    (processRequest clusterWeb1 .fresh requestWeb1).w.body
      ≠ "\x7b\"HostIP\":\"10.0.0.5\"\x7d" ∧
    (processRequest clusterWeb1 .fresh requestWeb1).w.body
      ≠ "\x7b\"HostIP\": \"10.0.0.5\"\x7d" := by
  decide

/-- C1, amended: when the get-by-name in namespace `default` succeeds for the
requested name with host address `A`, the handler returns after one write, and
the body is the compact JSON object with the one member `HostIP` whose value is
the JSON string literal for `A`, followed by one newline; when no character of
`A` needs a JSON escape the literal is `A` between double quotes. -/
theorem C1_success_body (cs : Clientset) (w : ResponseWriter) (r : Request)
    (podName : String) (rest : List String) (pod : Pod) (A : String)
    (hq : r.Query.index "podName" = podName :: rest)
    (hget : cs.get "default" podName = (pod, none)) (hA : pod.HostIP = A) :
    (processRequest cs w r).outcome = .returned ∧
    (processRequest cs w r).w.body =
      w.body ++ ("\x7b\"HostIP\":" ++ appendString A ++ "\x7d" ++ "\n") ∧
    (processRequest cs w r).trace.filter (fun ev => ev matches .write _) =
      [Event.write ("\x7b\"HostIP\":" ++ appendString A ++ "\x7d" ++ "\n")] ∧
    ((∀ c ∈ A.data, jsonPlain c = true) →
      (processRequest cs w r).w.body =
        w.body ++ ("\x7b\"HostIP\":\"" ++ A ++ "\"\x7d\n")) := by
  subst hA
  rw [processRequest_found cs w r podName rest pod hq hget]
  refine ⟨rfl, by simp [Write_body, Encode], by simp [Encode], ?_⟩
  intro hplain
  simp only [Write_body, Encode, appendString_plain pod.HostIP hplain]
  apply String.ext
  simp

/-- C1, amended, at the request for `web-1`. -/
theorem C1_success_body_witness :
    (processRequest clusterWeb1 .fresh requestWeb1).w.body =
      "" ++ ("\x7b\"HostIP\":\"" ++ "10.0.0.5" ++ "\"\x7d\n") :=
  (C1_success_body clusterWeb1 .fresh requestWeb1 "web-1" [] { HostIP := "10.0.0.5" }
    "10.0.0.5" (by decide) (by decide) rfl).2.2.2 (by decide)

/-- C2: when the API reports not-found for the requested pod name, the handler
writes to the body exactly the text `Error: Pod not found`: the same bytes for
every name, nothing after them, and never the bytes of a JSON record. -/
theorem C2_not_found_body (cs : Clientset) (w : ResponseWriter) (r : Request)
    (podName : String) (rest : List String) (pod : Pod) (e : K8sError)
    (hq : r.Query.index "podName" = podName :: rest)
    (hget : cs.get "default" podName = (pod, some e)) (hnf : e.isNotFound = true) :
    (processRequest cs w r).w.body = w.body ++ "Error: Pod not found" ∧
    (processRequest cs w r).trace.filter (fun ev => ev matches .write _) =
      [Event.write "Error: Pod not found"] ∧
    (processRequest cs w r).outcome = .returned ∧
    ∀ v : NodeInfo, Encode v ≠ "Error: Pod not found" := by
  rw [processRequest_notFound cs w r podName rest pod e hq hget hnf]
  refine ⟨by simp [Write_body], by simp, rfl, ?_⟩
  intro v hv
  have := congrArg (fun s => s.data.head?) hv
  simp [Encode] at this

/-- C2 at the request for `ghost` on a cluster that does not hold it. -/
theorem C2_not_found_body_witness :
    (processRequest clusterWeb1 .fresh requestGhost).w.body = "" ++ "Error: Pod not found" :=
  (C2_not_found_body clusterWeb1 .fresh requestGhost "ghost" [] { HostIP := "" }
    { isNotFound := true, statusMessage := some ("pods \"" ++ "ghost" ++ "\" not found"),
      text := "pods \"" ++ "ghost" ++ "\" not found" } (by decide) (by decide) rfl).1

/-- C3, as stated, fails: on `?podName=` the handler does not do as it does when
the parameter is absent. The guard does not fire, the client is called with the
empty name and refuses it, and the handler ends panicking, with an empty body;
without the parameter the handler returns, with an empty body and no call. -/
theorem C3_empty_value_not_short_circuited :
    requestEmptyName.Query.index "podName" = [""] ∧
    (processRequest clusterWeb1 .fresh requestEmptyName).outcome
      = .panicked "resource name may not be empty" ∧
    (processRequest clusterWeb1 .fresh requestEmptyName).clientset.calls
      = [("default", "")] ∧
    (processRequest clusterWeb1 .fresh requestEmptyName).w.body = "" ∧
    requestNoQuery.Query.index "podName" = [] ∧
    (processRequest clusterWeb1 .fresh requestNoQuery).outcome = .returned ∧
    (processRequest clusterWeb1 .fresh requestNoQuery).clientset.calls = [] ∧
    (processRequest clusterWeb1 .fresh requestNoQuery).w.body = "" := by
  decide

/-- C3, amended: a request whose first `podName` value is the empty string leaves
the body without a byte written, whatever the cluster holds, but not the way a
request without `podName` does. The guard does not fire and `queryPod` is called
with the empty name; the client is called once, refuses the empty name with the
plain error `resource name may not be empty` and sends nothing; `queryPod`
panics with that text, and the handler ends panicking instead of returning. -/
theorem C3_empty_value_panics (cs : Clientset) (w : ResponseWriter) (r : Request)
    (rest : List String) (hq : r.Query.index "podName" = "" :: rest) :
    (processRequest cs w r).w.body = w.body ∧
    (processRequest cs w r).trace =
      [Event.log (r.RemoteAddr ++ ": " ++ r.URL ++ "\n"),
       Event.headerSet "Access-Control-Allow-Origin" "*",
       Event.apiGet "default" ""] ∧
    (queryPod cs "").ret = .error "resource name may not be empty" ∧
    (processRequest cs w r).outcome = .panicked "resource name may not be empty" ∧
    (processRequest cs w r).outcome ≠ .returned ∧
    (processRequest cs w r).clientset.calls = cs.calls ++ [("default", "")] ∧
    (processRequest cs w r).clientset.sent = cs.sent := by
  have hget := Clientset_get_empty_name cs
  have hp := processRequest_panic cs w r "" rest { HostIP := "" }
    (plainError "resource name may not be empty") hq hget rfl rfl
  have hret := queryPod_ret cs ""
  rw [hget] at hret
  rw [hp]
  refine ⟨rfl, rfl, ?_, rfl, by simp, (Clientset_afterGet_empty_name cs).1,
    (Clientset_afterGet_empty_name cs).2⟩
  rw [hret]
  simp [plainError]

/-- C3, amended, at the request `?podName=` on a cluster that holds `web-1`. -/
theorem C3_empty_value_panics_witness :
    (processRequest clusterWeb1 .fresh requestEmptyName).w.body = "" ∧
    (processRequest clusterWeb1 .fresh requestEmptyName).outcome
      = .panicked "resource name may not be empty" ∧
    (processRequest clusterWeb1 .fresh requestEmptyName).clientset.sent = [] :=
  have h := C3_empty_value_panics clusterWeb1 .fresh requestEmptyName [] (by decide)
  ⟨h.1, h.2.2.2.1, h.2.2.2.2.2.2⟩

/-- C4: a request whose query has no `podName` value makes the handler return
after the log line and the header, and nothing more: no call of the API (so
`queryPod`, which always makes one, is not run), the client left as it was, and
no byte written to the body. -/
theorem C4_absent_parameter (cs : Clientset) (w : ResponseWriter) (r : Request)
    (hq : r.Query.index "podName" = []) :
    (processRequest cs w r).outcome = .returned ∧
    (processRequest cs w r).w.body = w.body ∧
    (processRequest cs w r).trace =
      [Event.log (r.RemoteAddr ++ ": " ++ r.URL ++ "\n"),
       Event.headerSet "Access-Control-Allow-Origin" "*"] ∧
    (processRequest cs w r).trace.filter Event.isApiGet = [] ∧
    (processRequest cs w r).clientset.calls = cs.calls ∧
    (processRequest cs w r).clientset.sent = cs.sent := by
  rw [processRequest_absent cs w r hq]
  simp [Event.isApiGet]

/-- C4 at the request without a query string. -/
theorem C4_absent_parameter_witness :
    (processRequest clusterWeb1 .fresh requestNoQuery).outcome = .returned ∧
    (processRequest clusterWeb1 .fresh requestNoQuery).w.body = "" ∧
    (processRequest clusterWeb1 .fresh requestNoQuery).trace.filter Event.isApiGet = [] :=
  have h := C4_absent_parameter clusterWeb1 .fresh requestNoQuery (by decide)
  ⟨h.1, h.2.1, h.2.2.2.1⟩

/-- C5: whatever the request and whatever the API answers, the response headers
after the handler hold `Access-Control-Allow-Origin` with the single value `*`;
setting it is the first operation on the response, before the query is looked
at and before any call of the API, and no later operation sets a header. -/
theorem C5_cors_header (cs : Clientset) (w : ResponseWriter) (r : Request) :
    (processRequest cs w r).w.header.values "Access-Control-Allow-Origin" = ["*"] ∧
    (processRequest cs w r).w.finishRequest.header.values "Access-Control-Allow-Origin"
      = ["*"] ∧
    ∃ rest, (processRequest cs w r).trace =
        Event.log (r.RemoteAddr ++ ": " ++ r.URL ++ "\n") ::
        Event.headerSet "Access-Control-Allow-Origin" "*" :: rest ∧
      rest.filter (fun ev => ev matches .headerSet _ _) = [] := by
  have hfin : ∀ v : ResponseWriter, v.finishRequest.header = v.header := by
    intro v
    unfold ResponseWriter.finishRequest ResponseWriter.WriteHeader
    split <;> simp_all
  rw [hfin]
  rcases processRequest_cases cs r with hq | ⟨podName, rest, pod, hq, hok | ⟨e, hget, hnf | ⟨hnf, message, hst⟩ | ⟨hnf, hst⟩⟩⟩
  · rw [processRequest_absent cs w r hq]
    simp [Header_values_Set]
  · rw [processRequest_found cs w r podName rest pod hq hok]
    simp [Header_values_Set, Write_header]
  · rw [processRequest_notFound cs w r podName rest pod e hq hget hnf]
    simp [Header_values_Set, Write_header]
  · rw [processRequest_status cs w r podName rest pod e message hq hget hnf hst]
    simp [Header_values_Set, Write_header]
  · rw [processRequest_panic cs w r podName rest pod e hq hget hnf hst]
    simp [Header_values_Set]

/-- C6: a `StatusError` that is not a not-found makes `queryPod` return the pair
(`Error: Pod not found`, false), the pair it returns for a true not-found; the
response the handler leaves is then the same in both cases, and its body is the
fixed text, in which the message of the error has no part. -/
theorem C6_status_error_as_not_found (cs1 cs2 : Clientset) (w : ResponseWriter)
    (r : Request) (podName : String) (rest : List String) (pod1 pod2 : Pod)
    (e1 e2 : K8sError) (message : String)
    (hq : r.Query.index "podName" = podName :: rest)
    (h1 : cs1.get "default" podName = (pod1, some e1)) (hnf1 : e1.isNotFound = true)
    (h2 : cs2.get "default" podName = (pod2, some e2)) (hnf2 : e2.isNotFound = false)
    (hst2 : e2.statusMessage = some message) :
    (queryPod cs2 podName).ret = .ok ("Error: Pod not found", false) ∧
    (queryPod cs1 podName).ret = .ok ("Error: Pod not found", false) ∧
    (processRequest cs2 w r).w = (processRequest cs1 w r).w ∧
    (processRequest cs2 w r).outcome = (processRequest cs1 w r).outcome ∧
    (processRequest cs2 w r).w.body = w.body ++ "Error: Pod not found" := by
  rw [processRequest_notFound cs1 w r podName rest pod1 e1 hq h1 hnf1,
    processRequest_status cs2 w r podName rest pod2 e2 message hq h2 hnf2 hst2]
  refine ⟨by simp [queryPod, Clientset.Get, h2, hnf2, hst2],
    by simp [queryPod, Clientset.Get, h1, hnf1], rfl, rfl, ?_⟩
  simp [Write_body]

/-- C6 at the request for `ghost`, on a cluster that forbids the read and on one
that does not hold the pod. -/
theorem C6_status_error_as_not_found_witness :
    (queryPod clusterForbidden "ghost").ret = .ok ("Error: Pod not found", false) ∧
    (queryPod clusterWeb1 "ghost").ret = .ok ("Error: Pod not found", false) ∧
    (processRequest clusterForbidden .fresh requestGhost).w =
      (processRequest clusterWeb1 .fresh requestGhost).w ∧
    (processRequest clusterForbidden .fresh requestGhost).outcome =
      (processRequest clusterWeb1 .fresh requestGhost).outcome ∧
    (processRequest clusterForbidden .fresh requestGhost).w.body =
      "" ++ "Error: Pod not found" :=
  C6_status_error_as_not_found clusterWeb1 clusterForbidden .fresh requestGhost "ghost" []
    { HostIP := "" } { HostIP := "" }
    { isNotFound := true, statusMessage := some ("pods \"" ++ "ghost" ++ "\" not found"),
      text := "pods \"" ++ "ghost" ++ "\" not found" }
    { isNotFound := false, statusMessage := some "pods is forbidden",
      text := "pods is forbidden" }
    "pods is forbidden" (by decide) (by decide) rfl rfl rfl rfl

/-- C7: an error that is neither a not-found nor a `StatusError` makes `queryPod`
panic with the text of the error instead of returning; the panic passes through
the handler, which writes nothing to the body and ends panicking, not returning. -/
theorem C7_other_error_panics (cs : Clientset) (w : ResponseWriter) (r : Request)
    (podName : String) (rest : List String) (pod : Pod) (e : K8sError)
    (hq : r.Query.index "podName" = podName :: rest)
    (hget : cs.get "default" podName = (pod, some e)) (hnf : e.isNotFound = false)
    (hst : e.statusMessage = none) :
    (queryPod cs podName).ret = .error e.text ∧
    (processRequest cs w r).outcome = .panicked e.text ∧
    (processRequest cs w r).w.body = w.body ∧
    (processRequest cs w r).trace.filter (fun ev => ev matches .write _) = [] := by
  rw [processRequest_panic cs w r podName rest pod e hq hget hnf hst]
  refine ⟨by simp [queryPod, Clientset.Get, hget, hnf, hst], rfl, rfl, by simp⟩

/-- C7 at the request for `web-1` on a cluster that cannot be reached. -/
theorem C7_other_error_panics_witness :
    (queryPod clusterDown "web-1").ret =
      .error "dial tcp 10.96.0.1:443: connect: connection refused" ∧
    (processRequest clusterDown .fresh requestWeb1).outcome =
      .panicked "dial tcp 10.96.0.1:443: connect: connection refused" ∧
    (processRequest clusterDown .fresh requestWeb1).w.body = "" ∧
    (processRequest clusterDown .fresh requestWeb1).trace.filter
      (fun ev => ev matches .write _) = [] :=
  C7_other_error_panics clusterDown .fresh requestWeb1 "web-1" [] { HostIP := "" }
    { isNotFound := false, statusMessage := none,
      text := "dial tcp 10.96.0.1:443: connect: connection refused" }
    (by decide) rfl rfl rfl

/-- C8: on every run of the handler that returns, the handler makes no
`WriteHeader` call, the finished response carries status 200, and two such runs
(whatever their requests and API answers) leave responses that are equal once
the body is set aside. -/
theorem C8_status_always_default (cs1 cs2 : Clientset) (r1 r2 : Request)
    (h1 : (processRequest cs1 .fresh r1).outcome = .returned)
    (h2 : (processRequest cs2 .fresh r2).outcome = .returned) :
    (processRequest cs1 .fresh r1).trace.filter Event.isWriteHeader = [] ∧
    (processRequest cs1 .fresh r1).w.finishRequest.status = 200 ∧
    { (processRequest cs1 .fresh r1).w.finishRequest with body := "" } =
      { (processRequest cs2 .fresh r2).w.finishRequest with body := "" } := by
  have e1 := processRequest_frame cs1 .fresh r1 h1
  have e2 := processRequest_frame cs2 .fresh r2 h2
  refine ⟨e1.2, ?_, by rw [e1.1, e2.1]⟩
  have := congrArg ResponseWriter.status e1.1
  simpa [ResponseWriter.fresh] using this

/-- C8 at a successful lookup and at a request without a query string. -/
theorem C8_status_always_default_witness :
    (processRequest clusterWeb1 .fresh requestWeb1).trace.filter Event.isWriteHeader = [] ∧
    (processRequest clusterWeb1 .fresh requestWeb1).w.finishRequest.status = 200 ∧
    { (processRequest clusterWeb1 .fresh requestWeb1).w.finishRequest with body := "" } =
      { (processRequest clusterForbidden .fresh requestNoQuery).w.finishRequest
          with body := "" } :=
  C8_status_always_default clusterWeb1 clusterForbidden requestWeb1 requestNoQuery
    (by decide) (by decide)

/-- C9, as stated, fails: with `HOME` set to the empty string the path is the
relative `.kube/config`, not `/.kube/config`; with `HOME` set to `/home/u/` it
is `/home/u/.kube/config`, not the value followed by `/.kube/config`. -/
theorem C9_join_cleans_the_path :
    envHomeEmpty "HOME" = some "" ∧
    configPath envHomeEmpty = ".kube/config" ∧
    configPath envHomeEmpty ≠ "" ++ "/.kube/config" ∧
    envHomeTrailingSlash "HOME" = some "/home/u/" ∧
    configPath envHomeTrailingSlash = "/home/u/.kube/config" ∧
    configPath envHomeTrailingSlash ≠ "/home/u/" ++ "/.kube/config" := by
  decide

/-- C9, amended: the credentials path is `filepath.Join(home, ".kube", "config")`.
With `HOME` unset it is `/root/.kube/config`. With `HOME` set to a path that
`filepath.Clean` leaves unchanged, other than `/` and `.`, it is the value
followed by `/.kube/config`. With `HOME` set to any non-empty value it is the
cleaned form of the value followed by `/.kube/config`, and with `HOME` set to
the empty string it is `.kube/config`. -/
theorem C9_config_path (LookupEnv : String → Option String) :
    (LookupEnv "HOME" = none → configPath LookupEnv = "/root/.kube/config") ∧
    (∀ home, LookupEnv "HOME" = some home → Clean home = home → home ≠ "/" → home ≠ "." →
      configPath LookupEnv = home ++ "/.kube/config") ∧
    (∀ home, LookupEnv "HOME" = some home → home ≠ "" →
      configPath LookupEnv = Clean (home ++ "/.kube/config")) ∧
    (LookupEnv "HOME" = some "" → configPath LookupEnv = ".kube/config") := by
  refine ⟨?_, ?_, ?_, ?_⟩
  · intro h
    have : configPath LookupEnv = configPath (fun _ => none) := by
      simp [configPath, h]
    rw [this]
    decide
  · intro home henv hclean hroot hdot
    have hne : home ≠ "" := by
      intro h
      subst h
      exact absurd hclean (by decide)
    rw [configPath_of_home LookupEnv home henv hne]
    exact Clean_append_kube_config home hclean hroot hdot
  · intro home henv hne
    exact configPath_of_home LookupEnv home henv hne
  · intro h
    have : configPath LookupEnv = configPath envHomeEmpty := by
      simp [configPath, h, envHomeEmpty]
    rw [this]
    decide

/-- C9, amended, at an environment without `HOME` and at one with `HOME` set to
`/home/u`. -/
theorem C9_config_path_witness :
    configPath (fun _ => none) = "/root/.kube/config" ∧
    configPath envHomeUser = "/home/u" ++ "/.kube/config" :=
  ⟨(C9_config_path (fun _ => none)).1 rfl,
   (C9_config_path envHomeUser).2.1 "/home/u" (by decide) (by decide) (by decide) (by decide)⟩

/-- C10: `queryPod` makes exactly one get-by-name call on the client, for
namespace `default` and for the very name it was given, and its result is read
off the answer of that call. A run of the handler makes that one call for the
first `podName` value of the query, or none when there is none. A request that
goes out to the server is for namespace `default`, and on two clients that answer
alike in namespace `default` and differ at will in every other namespace the
handler does the same whatever the request: no request makes it query another
namespace. -/
theorem C10_single_default_namespace_get (cs cs2 : Clientset) (w : ResponseWriter)
    (r : Request) (podName : String)
    (hsame : ∀ name, cs2.get "default" name = cs.get "default" name) :
    (queryPod cs podName).clientset.calls = cs.calls ++ [("default", podName)] ∧
    (queryPod cs podName).trace.filter Event.isApiGet = [Event.apiGet "default" podName] ∧
    (queryPod cs podName).ret =
      (match cs.get "default" podName with
       | (pod, none) => .ok (pod.HostIP, true)
       | (_, some e) =>
         if e.isNotFound = true ∨ e.statusMessage.isSome = true
         then .ok ("Error: Pod not found", false) else .error e.text) ∧
    (cs.refusal "default" podName = none →
      (queryPod cs podName).clientset.sent = cs.sent ++ [("default", podName)]) ∧
    (∀ p ∈ (queryPod cs podName).clientset.sent, p ∈ cs.sent ∨ p = ("default", podName)) ∧
    (processRequest cs w r).clientset.calls =
      cs.calls ++ (match r.Query.index "podName" with
        | [] => []
        | first :: _ => [("default", first)]) ∧
    (∀ p ∈ (processRequest cs w r).clientset.sent, p ∈ cs.sent ∨ p.1 = "default") ∧
    (processRequest cs2 w r).w = (processRequest cs w r).w ∧
    (processRequest cs2 w r).trace = (processRequest cs w r).trace ∧
    (processRequest cs2 w r).outcome = (processRequest cs w r).outcome := by
  have hq := queryPod_clientset cs podName
  have hp := processRequest_clientset cs w r
  have hc := processRequest_congr cs cs2 w r hsame
  refine ⟨?_, hq.2, queryPod_ret cs podName, ?_, ?_, ?_, ?_, hc.1, hc.2.1, hc.2.2⟩
  · rw [hq.1]
    rfl
  · intro href
    rw [hq.1]
    simp [Clientset.afterGet, href]
  · intro p hmem
    rw [hq.1] at hmem
    simp only [Clientset.afterGet] at hmem
    split at hmem
    · exact Or.inl hmem
    · rcases List.mem_append.mp hmem with h1 | h1
      · exact Or.inl h1
      · exact Or.inr (by simpa using h1)
  · rw [hp]
    cases r.Query.index "podName" with
    | nil => simp
    | cons first rest => rfl
  · intro p hmem
    rw [hp] at hmem
    cases hidx : r.Query.index "podName" with
    | nil =>
      rw [hidx] at hmem
      exact Or.inl hmem
    | cons first rest =>
      rw [hidx] at hmem
      simp only [Clientset.afterGet] at hmem
      split at hmem
      · exact Or.inl hmem
      · rcases List.mem_append.mp hmem with h1 | h1
        · exact Or.inl h1
        · have : p = ("default", first) := by simpa using h1
          exact Or.inr (by rw [this])

/-- C10 at the request for `ghost`, on a cluster that holds no `ghost` in
namespace `default`, and on the same cluster with a `ghost` in `kube-system`. -/
theorem C10_single_default_namespace_get_witness :
    (queryPod clusterWeb1 "ghost").clientset.calls = [] ++ [("default", "ghost")] ∧
    (queryPod clusterWeb1 "ghost").clientset.sent = [] ++ [("default", "ghost")] ∧
    (processRequest clusterWeb1AndSystemGhost .fresh requestGhost).w =
      (processRequest clusterWeb1 .fresh requestGhost).w :=
  have h := C10_single_default_namespace_get clusterWeb1 clusterWeb1AndSystemGhost .fresh
    requestGhost "ghost"
    (fun name => by
      simp [clusterWeb1AndSystemGhost, clusterWeb1, newClient, Clientset.get,
        Clientset.refusal])
  ⟨h.1, h.2.2.2.1 (by decide), h.2.2.2.2.2.2.2.1⟩

end Pod2ip
